import Mathlib

/-!
Verification development for the investment-video-analyzer application
(`app.py`).  The Python functions relevant to the specification are shallowly
embedded as executable Lean definitions: pure string manipulation is embedded
directly, the filesystem is an explicit record threaded through the embedded
control flow, and behaviour of external collaborators (yt-dlp, the Gemini
client) is supplied as an explicit outcome parameter.
-/

namespace App

/-! ### JSON values and a model of Python `json.loads`

The application calls the standard-library decoder `json.loads`.  We model it
with an executable recursive-descent JSON decoder over the character list.
Numbers are modelled as integers (fractional and exponent numerals are not
modelled; no claim depends on them); object duplicate keys follow Python's
later-wins rule via `pyGet` below. -/

inductive JSON where
  | null : JSON
  | bool : Bool → JSON
  | num : Int → JSON
  | str : String → JSON
  | arr : List JSON → JSON
  | obj : List (String × JSON) → JSON

/-- Whether a decoded value is a JSON object (a Python `dict`). -/
def JSON.isObj : JSON → Bool
  | .obj _ => true
  | _ => false

/-- JSON insignificant whitespace (RFC 8259: space, tab, newline, return). -/
def skipWs (cs : List Char) : List Char :=
  cs.dropWhile fun c => decide (c = ' ' ∨ c = '\t' ∨ c = '\n' ∨ c = '\r')

/-- Longest leading run of decimal digits, and the remainder. -/
def spanDigits (cs : List Char) : List Char × List Char :=
  (cs.takeWhile Char.isDigit, cs.dropWhile Char.isDigit)

/-- Numeric value of a digit run. -/
def digitsVal (ds : List Char) : Nat :=
  ds.foldl (fun acc d => 10 * acc + (d.toNat - 48)) 0

/-- A JSON integer numeral: one or more digits, no superfluous leading zero. -/
def pNumNat (cs : List Char) : Option (Nat × List Char) :=
  match spanDigits cs with
  | ([], _) => none
  | (ds, rest) =>
    if 1 < ds.length && ds.headD '0' = '0' then none
    else some (digitsVal ds, rest)

/-- Value of a hexadecimal digit, if any. -/
def hexDigit (c : Char) : Option Nat :=
  if 48 ≤ c.toNat ∧ c.toNat ≤ 57 then some (c.toNat - 48)
  else if 97 ≤ c.toNat ∧ c.toNat ≤ 102 then some (c.toNat - 87)
  else if 65 ≤ c.toNat ∧ c.toNat ≤ 70 then some (c.toNat - 55)
  else none

/-- Value of a four-digit hexadecimal escape body. -/
def hexQuad (hs : List Char) : Option Nat :=
  hs.foldl
    (fun acc c =>
      match acc, hexDigit c with
      | some a, some v => some (16 * a + v)
      | _, _ => none)
    (some 0)

/-- One-character JSON escapes after a backslash. -/
def escChar (e : Char) : Option Char :=
  if e = 'n' then some '\n'
  else if e = 't' then some '\t'
  else if e = 'r' then some '\r'
  else if e = 'b' then some '\x08'
  else if e = 'f' then some '\x0c'
  else if e = '"' ∨ e = '\\' ∨ e = '/' then some e
  else none

/-- An escape sequence after the backslash: its denoted character and the
remaining input. -/
def pEscape : List Char → Option (Char × List Char)
  | [] => none
  | e :: rest =>
    if e = 'u' then
      match rest with
      | h1 :: h2 :: h3 :: h4 :: r =>
        match hexQuad [h1, h2, h3, h4] with
        | some n => some (Char.ofNat n, r)
        | none => none
      | _ => none
    else
      match escChar e with
      | some ec => some (ec, rest)
      | none => none

/-- Body of a JSON string after the opening quote (fuelled). -/
def pStrChars : Nat → List Char → Option (List Char × List Char)
  | 0, _ => none
  | _, [] => none
  | fuel + 1, c :: cs =>
    if c = '"' then some ([], cs)
    else if c = '\\' then
      match pEscape cs with
      | some (ec, r) => (pStrChars fuel r).map fun sr => (ec :: sr.1, sr.2)
      | none => none
    else if c.toNat < 32 then none
    else (pStrChars fuel cs).map fun sr => (c :: sr.1, sr.2)

/-- If `needle` is a prefix of `hay`, the remainder after it. -/
def charsPrefix : List Char → List Char → Option (List Char)
  | [], hay => some hay
  | _, [] => none
  | n :: ns, h :: hs => if h = n then charsPrefix ns hs else none

mutual

/-- A JSON value (fuelled recursive descent). -/
def pVal : Nat → List Char → Option (JSON × List Char)
  | 0, _ => none
  | fuel + 1, cs =>
    match skipWs cs with
    | [] => none
    | c :: rest =>
      if c = '"' then
        match pStrChars (rest.length + 1) rest with
        | some (s, r) => some (.str (String.mk s), r)
        | none => none
      else if c = '[' then pArrItems fuel (skipWs rest)
      else if c = '{' then pObjItems fuel (skipWs rest)
      else if c = '-' then
        match pNumNat rest with
        | some (n, r) => some (.num (-(n : Int)), r)
        | none => none
      else if c.isDigit then
        match pNumNat (c :: rest) with
        | some (n, r) => some (.num (n : Int), r)
        | none => none
      else
        match charsPrefix ['n', 'u', 'l', 'l'] (c :: rest) with
        | some r => some (.null, r)
        | none =>
          match charsPrefix ['t', 'r', 'u', 'e'] (c :: rest) with
          | some r => some (.bool true, r)
          | none =>
            match charsPrefix ['f', 'a', 'l', 's', 'e'] (c :: rest) with
            | some r => some (.bool false, r)
            | none => none

/-- Items of a JSON array, positioned after `[` with whitespace skipped. -/
def pArrItems : Nat → List Char → Option (JSON × List Char)
  | 0, _ => none
  | fuel + 1, cs =>
    match cs with
    | ']' :: rest => some (.arr [], rest)
    | _ =>
      match pVal fuel cs with
      | some (v, r) =>
        match pArrTail fuel r with
        | some (vs, r2) => some (.arr (v :: vs), r2)
        | none => none
      | none => none

/-- Continuation of an array after one parsed item. -/
def pArrTail : Nat → List Char → Option (List JSON × List Char)
  | 0, _ => none
  | fuel + 1, cs =>
    match skipWs cs with
    | ']' :: rest => some ([], rest)
    | ',' :: rest =>
      match pVal fuel rest with
      | some (v, r) =>
        match pArrTail fuel r with
        | some (vs, r2) => some (v :: vs, r2)
        | none => none
      | none => none
    | _ => none

/-- Members of a JSON object, positioned after the opening brace with
whitespace skipped. -/
def pObjItems : Nat → List Char → Option (JSON × List Char)
  | 0, _ => none
  | fuel + 1, cs =>
    match cs with
    | '}' :: rest => some (.obj [], rest)
    | _ =>
      match pMember fuel cs with
      | some (kv, r) =>
        match pObjTail fuel r with
        | some (kvs, r2) => some (.obj (kv :: kvs), r2)
        | none => none
      | none => none

/-- Continuation of an object after one parsed member. -/
def pObjTail : Nat → List Char → Option (List (String × JSON) × List Char)
  | 0, _ => none
  | fuel + 1, cs =>
    match skipWs cs with
    | '}' :: rest => some ([], rest)
    | ',' :: rest =>
      match pMember fuel rest with
      | some (kv, r) =>
        match pObjTail fuel r with
        | some (kvs, r2) => some (kv :: kvs, r2)
        | none => none
      | none => none
    | _ => none

/-- One `"key": value` member of a JSON object. -/
def pMember : Nat → List Char → Option ((String × JSON) × List Char)
  | 0, _ => none
  | fuel + 1, cs =>
    match skipWs cs with
    | '"' :: rest =>
      match pStrChars (rest.length + 1) rest with
      | some (k, r) =>
        match skipWs r with
        | ':' :: r2 =>
          match pVal fuel r2 with
          | some (v, r3) => some ((String.mk k, v), r3)
          | none => none
        | _ => none
      | none => none
    | _ => none

end

/-- Model of Python `json.loads`: decode the whole text as one JSON value, or
fail (`None` standing for the raised `JSONDecodeError`). -/
def json_loads (s : String) : Option JSON :=
  match pVal (2 * s.length + 4) s.data with
  | some (v, rest) => if (skipWs rest).isEmpty then some v else none
  | none => none

/-! ### Embedded Python string operations

The functions below embed precisely the string primitives used by
`parse_gemini_response` and `get_video_info_basic`: the `in` containment
test, `str.split` (Lean's `String.splitOn` has the same leftmost
non-overlapping semantics for a non-empty separator), `str.strip`
(`String.trim`; both strip space/tab/newline/return), `str.find`,
`str.rfind` (index of first/last occurrence or -1) and slicing. -/

/-- Split on every leftmost non-overlapping occurrence of `sep` (`acc` holds
the current piece reversed; fuelled, with fuel at least the input length). -/
def splitCharsAux : Nat → List Char → List Char → List Char → List (List Char)
  | 0, _, acc, cs => [acc.reverse ++ cs]
  | fuel + 1, sep, acc, cs =>
    match charsPrefix sep cs with
    | some rest => acc.reverse :: splitCharsAux fuel sep [] rest
    | none =>
      match cs with
      | [] => [acc.reverse]
      | c :: cs2 => splitCharsAux fuel sep (c :: acc) cs2

/-- Python `s.split(sep)` for a non-empty separator. -/
def pySplit (s sep : String) : List String :=
  (splitCharsAux (s.length + 1) sep.data [] s.data).map String.mk

/-- Python `needle in s` for a non-empty needle. -/
def containsSubstr (needle s : String) : Bool :=
  2 ≤ (pySplit s needle).length

/-- Python whitespace stripped by `str.strip()` (the ASCII cases). -/
def isPyWs (c : Char) : Bool :=
  c = ' ' || c = '\t' || c = '\n' || c = '\r' || c = '\x0b' || c = '\x0c'

/-- Python `s.strip()`. -/
def pyStrip (s : String) : String :=
  String.mk (((s.data.dropWhile isPyWs).reverse.dropWhile isPyWs).reverse)

/-- Python `s.lower()` (the ASCII cases, which are the only ones the
application's fixed strings exercise). -/
def pyLowerStr (s : String) : String :=
  String.mk (s.data.map Char.toLower)

/-- Python `s.find(c)`: index of the first occurrence of `c`, else `-1`. -/
def py_find (s : String) (c : Char) : Int :=
  match s.data.findIdx? (· = c) with
  | some i => (i : Int)
  | none => -1

/-- Python `s.rfind(c)`: index of the last occurrence of `c`, else `-1`. -/
def py_rfind (s : String) (c : Char) : Int :=
  match s.data.reverse.findIdx? (· = c) with
  | some i => ((s.data.length - 1 - i : Nat) : Int)
  | none => -1

/-- Python slice `s[a:b]` for non-negative bounds (empty when `b ≤ a`). -/
def pySlice (s : String) (a b : Nat) : String :=
  String.mk ((s.data.drop a).take (b - a))

/-- Python slice `s[:n]`. -/
def pyTake (s : String) (n : Nat) : String :=
  String.mk (s.data.take n)

/-! ### `parse_gemini_response` (app.py lines 147-173) -/

/-- The working text: fenced-block extraction (split on a tagged fence when
present, else on a plain fence, else keep the whole text) followed by
`.strip()`.  Embeds app.py lines 151-157, where the code rebinds the
`response_text` variable to this value. -/
def workingText (response_text : String) : String :=
  pyStrip
    (if containsSubstr "```json" response_text then
      (pySplit ((pySplit response_text "```json").getD 1 "") "```").headD ""
    else if containsSubstr "```" response_text then
      (pySplit ((pySplit response_text "```").getD 1 "") "```").headD ""
    else response_text)

/-- The decode candidate chosen from the working text.  Embeds app.py lines
160-168 verbatim: `end_idx` is `rfind + 1`, and the guard tests
`end_idx != -1` (which, after the `+ 1`, can never hold `-1`). -/
def selectCandidate (wt : String) : String :=
  let start_idx : Int := py_find wt '{'
  let end_idx : Int := py_rfind wt '}' + 1
  if start_idx ≠ -1 ∧ end_idx ≠ -1 then
    pySlice wt start_idx.toNat end_idx.toNat
  else wt

/-- Modelled from the spec (§4.5 step 3), for comparison with
`selectCandidate`: the inclusive substring only when the first brace exists
and precedes the last closing brace, otherwise the entire working text. -/
def selectCandidateSpec (wt : String) : String :=
  let i : Int := py_find wt '{'
  let j : Int := py_rfind wt '}'
  if i ≠ -1 ∧ j ≠ -1 ∧ i < j then
    pySlice wt i.toNat (j.toNat + 1)
  else wt

/-- Result of `parse_gemini_response`: the decoded JSON value, or the
`None`-plus-error-message failure path carrying the diagnostic excerpt
printed by `st.error` (the first 500 characters of the current value of the
`response_text` variable, i.e. of the working text). -/
inductive ParseOutcome where
  | success : JSON → ParseOutcome
  | failure : String → ParseOutcome

/-- Embeds `parse_gemini_response` (app.py lines 147-173). -/
def parse_gemini_response (response_text : String) : ParseOutcome :=
  match json_loads (selectCandidate (workingText response_text)) with
  | some v => .success v
  | none => .failure (pyTake (workingText response_text) 500)

/-! ### `display_analysis_results` (app.py lines 175-230)

The defaulted field reads of the displayed result.  Python raises where the
embedding returns `.error`: comparing a non-numeric score with `80`
(`TypeError`), iterating a truthy non-iterable (`TypeError`), or calling
`.lower()` on a non-string (`AttributeError`). -/

/-- Python `dict.get(k)` over a decoded object; for duplicate keys the later
member wins, as in a Python dict built by `json.loads`. -/
def pyGet (kvs : List (String × JSON)) (k : String) : Option JSON :=
  kvs.foldl (fun acc kv => if kv.1 = k then some kv.2 else acc) none

/-- Python `dict.get(k, d)`. -/
def pyGetD (kvs : List (String × JSON)) (k : String) (d : JSON) : JSON :=
  (pyGet kvs k).getD d

/-- Python truthiness of a decoded JSON value. -/
def pyTruthy : JSON → Bool
  | .null => false
  | .bool b => b
  | .num n => n != 0
  | .str s => !s.isEmpty
  | .arr l => !l.isEmpty
  | .obj l => !l.isEmpty

/-- A value usable in the `score >= 80` comparisons: numbers and booleans
order against an int in Python; anything else raises `TypeError`. -/
def pyIntOfJSON : JSON → Except String Int
  | .num n => .ok n
  | .bool b => .ok (if b then 1 else 0)
  | _ => .error "TypeError: comparison with int"

/-- Python `for x in v` over a truthy value: lists iterate their elements,
strings their characters, dicts their keys; numbers and booleans raise. -/
def pyIter : JSON → Except String (List JSON)
  | .arr l => .ok l
  | .str s => .ok (s.data.map fun c => .str (String.mk [c]))
  | .obj l => .ok (l.map fun kv => .str kv.1)
  | _ => .error "TypeError: not iterable"

/-- The elements displayed for one list-like field: skipped (empty) when the
field is absent or falsy, iterated otherwise. -/
def readListField (kvs : List (String × JSON)) (k : String) : Except String (List JSON) :=
  match pyGet kvs k with
  | none => .ok []
  | some v => if pyTruthy v then pyIter v else .ok []

/-- Embeds `score = analysis_result.get('relevance_score', 0)` followed by the
ordered comparisons against 80/50. -/
def readScore (kvs : List (String × JSON)) : Except String Int :=
  pyIntOfJSON (pyGetD kvs "relevance_score" (.num 0))

/-- Embeds `analysis_result.get('risk_assessment', 'unknown').lower()`. -/
def readRisk (kvs : List (String × JSON)) : Except String String :=
  match pyGetD kvs "risk_assessment" (.str "unknown") with
  | .str s => .ok (pyLowerStr s)
  | _ => .error "AttributeError: lower"

/-- The values `display_analysis_results` reads out of the decoded object. -/
structure DisplayedAnalysis where
  score : Int
  content_summary : Option JSON
  summary : JSON
  specific_matches : List JSON
  key_insights : List JSON
  action_items : List JSON
  risk : String
  visual_elements : List JSON

/-- Embeds the field reads of `display_analysis_results` (app.py lines
180-230), in the order the code performs them. -/
def display_analysis_results (kvs : List (String × JSON)) : Except String DisplayedAnalysis :=
  match readScore kvs with
  | .error e => .error e
  | .ok score =>
    match readListField kvs "specific_matches" with
    | .error e => .error e
    | .ok sm =>
      match readListField kvs "key_insights" with
      | .error e => .error e
      | .ok ki =>
        match readListField kvs "action_items" with
        | .error e => .error e
        | .ok ai =>
          match readRisk kvs with
          | .error e => .error e
          | .ok rk =>
            match readListField kvs "visual_elements" with
            | .error e => .error e
            | .ok ve =>
              .ok { score := score
                    content_summary :=
                      (if pyTruthy (pyGetD kvs "content_summary" .null) then
                        some (pyGetD kvs "content_summary" .null)
                      else none)
                    summary := pyGetD kvs "summary" (.str "No summary available")
                    specific_matches := sm
                    key_insights := ki
                    action_items := ai
                    risk := rk
                    visual_elements := ve }

/-! ### Filesystem model

The filesystem visible to the pipeline: regular files with byte sizes, plus
directories.  `mkdtemp`, `open(..,'wb').write`, `os.remove`, `os.rmdir`,
`os.path.exists` and `os.path.getsize` map to the operations below. -/

structure FS where
  files : List (String × Nat)
  dirs : List String

/-- Python `os.path.getsize` / `os.path.exists` for regular files. -/
def FS.getFile (fs : FS) (p : String) : Option Nat :=
  (fs.files.find? fun f => f.1 = p).map (·.2)

/-- Create or overwrite a regular file. -/
def FS.writeFile (fs : FS) (p : String) (sz : Nat) : FS :=
  { fs with files := (p, sz) :: fs.files.filter fun f => !(f.1 = p : Bool) }

/-- Python `os.remove`. -/
def FS.removeFile (fs : FS) (p : String) : FS :=
  { fs with files := fs.files.filter fun f => !(f.1 = p : Bool) }

/-- Python `tempfile.mkdtemp` outcome: the fresh directory now exists. -/
def FS.mkdir (fs : FS) (d : String) : FS :=
  { fs with dirs := d :: fs.dirs }

/-- Python `os.rmdir`. -/
def FS.rmdir (fs : FS) (d : String) : FS :=
  { fs with dirs := fs.dirs.filter fun x => !(x = d : Bool) }

/-- Python `os.path.exists` for directories. -/
def FS.dirExists (fs : FS) (d : String) : Bool :=
  fs.dirs.any fun x => x = d

/-- Write a file only if the provider produced one. -/
def FS.writeOpt (fs : FS) (p : String) (w : Option Nat) : FS :=
  match w with
  | some sz => fs.writeFile p sz
  | none => fs

/-! ### `download_video_for_gemini` (app.py lines 36-67) -/

/-- Behaviour of the external downloader on this invocation: either
`extract_info` raised, or it returned a prepared filename, with
`written = some sz` when it wrote a file of `sz` bytes at that path (partial
writes before an exception are not modelled). -/
inductive DlOutcome where
  | raised (msg : String)
  | returned (path : String) (written : Option Nat)

/-- Result of one `download_video_for_gemini` invocation: the filesystem
afterwards, the returned value, and the `st.error`/`st.warning` messages
emitted (the side channel). -/
structure AcquireOut where
  fs : FS
  result : Option String
  errors : List String

/-- One mebibyte; `os.path.getsize(p) / (1024*1024) > max_size_mb` is the
exact rational comparison `sizeBytes > max_size_mb * 1048576` (the float
division by a power of two is exact for any realistic file size). -/
def MB : Nat := 1048576

/-- The size check `file_size_mb > max_size_mb`. -/
def overBudget (sizeBytes maxMB : Nat) : Bool :=
  maxMB * MB < sizeBytes

/-- The body of the `if os.path.exists(video_path)` block (app.py lines
53-63). -/
def downloadSizeCheck (fs : FS) (path : String) (maxMB : Nat) : AcquireOut :=
  match fs.getFile path with
  | some sz =>
    if overBudget sz maxMB then
      { fs := fs.removeFile path
        result := none
        errors := ["Video is over the size limit. Using YouTube URL directly."] }
    else { fs := fs, result := some path, errors := [] }
  | none =>
    { fs := fs, result := none, errors := ["Failed to download video file"] }

/-- Embeds `download_video_for_gemini` (app.py lines 36-67): create the temp
directory, run the downloader, then size-check the result; every exception
is caught and mapped to a reported error plus `None`. -/
def download_video_for_gemini (fs0 : FS) (tempDir : String) (o : DlOutcome)
    (max_size_mb : Nat) : AcquireOut :=
  match o with
  | .raised m =>
    { fs := fs0.mkdir tempDir
      result := none
      errors := ["Error downloading video: " ++ m] }
  | .returned path written =>
    downloadSizeCheck ((fs0.mkdir tempDir).writeOpt path written) path max_size_mb

/-! ### `get_video_info_basic` (app.py lines 16-34) -/

/-- Behaviour of `yt_dlp.extract_info` without download: raised, or an info
dict whose `title`/`duration` keys may be absent. -/
inductive ExtractOutcome where
  | raised (msg : String)
  | info (title : Option String) (duration : Option Nat)

structure VideoInfo where
  title : String
  duration : Nat
  url : String
  platform : String

/-- Embeds `get_video_info_basic` (app.py lines 16-34); the second component
is the list of `st.error` messages emitted (the side channel). -/
def get_video_info_basic (url : String) (o : ExtractOutcome) : VideoInfo × List String :=
  match o with
  | .info t d =>
    ({ title := t.getD "Unknown"
       duration := d.getD 0
       url := url
       platform :=
         if containsSubstr "youtube.com" url || containsSubstr "youtu.be" url then
           "YouTube"
         else "Other" }, [])
  | .raised m =>
    ({ title := "Unknown", duration := 0, url := url, platform := "Unknown" },
     ["Error extracting video info: " ++ m])

/-! ### `analyze_video_with_gemini` request payload (app.py lines 107-139) -/

/-- The content part of the request: a remote file reference, or inline bytes
with a declared MIME type. -/
inductive RequestPayload where
  | fileData (file_uri : String)
  | inlineData (data : List Nat) (mime_type : String)

/-- The MIME type declared by a payload, when it has one. -/
def RequestPayload.mimeType : RequestPayload → Option String
  | .fileData _ => none
  | .inlineData _ m => some m

/-- Embeds the payload construction of `analyze_video_with_gemini` (app.py
lines 107-139): a bare file-uri part for YouTube URLs, otherwise the local
file's bytes inline with the hard-coded MIME type `'video/mp4'`. -/
def buildVideoPart (video_source : String) (readBytes : String → List Nat)
    (is_youtube_url : Bool) : RequestPayload :=
  if is_youtube_url then .fileData video_source
  else .inlineData (readBytes video_source) "video/mp4"

/-! ### The two temporary-storage flows of `main`

`mainUrlDownloadFlow` embeds app.py lines 377-410 (download, then the
try/except around analysis with `os.remove(video_path)` on both paths);
`mainUploadFlow` embeds lines 439-476 (mkdtemp + staging write, then the
try/except whose both paths remove the staging file and its directory).
`proc` abstracts whether the analyse/parse/display section completed or
raised an exception caught by the surrounding `except`. -/

inductive ProcessOutcome where
  | ok
  | raised

/-- The post-download handling of the URL branch: on success remove the
video file at the end of the `try`; on an exception remove it in the
`except` if it still exists; the temp directory is not touched. -/
def urlDownloadCleanup (a : AcquireOut) (proc : ProcessOutcome) : FS :=
  match a.result with
  | none => a.fs
  | some path =>
    match proc with
    | .ok => a.fs.removeFile path
    | .raised =>
      if (a.fs.getFile path).isSome then a.fs.removeFile path else a.fs

/-- The Instagram/TikTok/Other-URL branch of `main` (app.py lines 377-410). -/
def mainUrlDownloadFlow (fs0 : FS) (tempDir : String) (o : DlOutcome)
    (proc : ProcessOutcome) (max_size_mb : Nat) : FS :=
  urlDownloadCleanup (download_video_for_gemini fs0 tempDir o max_size_mb) proc

/-- Embeds `if os.path.exists(temp_dir): os.rmdir(temp_dir)`. -/
def uploadExceptRmdir (fs3 : FS) (tempDir : String) : FS :=
  if fs3.dirExists tempDir then fs3.rmdir tempDir else fs3

/-- The `except` block of the upload branch (app.py lines 471-476): remove
the staging file and its directory if they still exist. -/
def uploadExceptCleanup (fs2 : FS) (tempPath tempDir : String) : FS :=
  uploadExceptRmdir (if (fs2.getFile tempPath).isSome then fs2.removeFile tempPath else fs2)
    tempDir

/-- The `try`/`except` of the upload branch around the staged file. -/
def uploadCleanup (fs1 : FS) (tempPath tempDir : String) (proc : ProcessOutcome) : FS :=
  match proc with
  | .ok => (fs1.removeFile tempPath).rmdir tempDir
  | .raised => uploadExceptCleanup fs1 tempPath tempDir

/-- The Upload-Video-File branch of `main` (app.py lines 439-476). -/
def mainUploadFlow (fs0 : FS) (tempDir fileName : String) (sizeBytes : Nat)
    (proc : ProcessOutcome) : FS :=
  uploadCleanup ((fs0.mkdir tempDir).writeFile (tempDir ++ "/" ++ fileName) sizeBytes)
    (tempDir ++ "/" ++ fileName) tempDir proc

/-! ### Helper lemmas about the filesystem model -/

theorem FS.getFile_writeFile_self (fs : FS) (p : String) (sz : Nat) :
    (fs.writeFile p sz).getFile p = some sz := by
  simp [FS.getFile, FS.writeFile, List.find?]

theorem FS.getFile_removeFile_self (fs : FS) (p : String) :
    (fs.removeFile p).getFile p = none := by
  have h : (fs.files.filter fun f => !(f.1 = p : Bool)).find?
      (fun f => (f.1 = p : Bool)) = none := by
    rw [List.find?_eq_none]
    intro x hx
    have hne := (List.mem_filter.mp hx).2
    simpa using hne
  simp [FS.getFile, FS.removeFile, h]

theorem FS.getFile_mkdir (fs : FS) (d p : String) :
    (fs.mkdir d).getFile p = fs.getFile p := rfl

theorem FS.getFile_rmdir (fs : FS) (d p : String) :
    (fs.rmdir d).getFile p = fs.getFile p := rfl

theorem FS.dirExists_mkdir_self (fs : FS) (d : String) :
    (fs.mkdir d).dirExists d = true := by
  simp [FS.dirExists, FS.mkdir]

theorem FS.dirExists_rmdir_self (fs : FS) (d : String) :
    (fs.rmdir d).dirExists d = false := by
  simp only [FS.dirExists, FS.rmdir, List.any_eq_false, List.mem_filter]
  intro x hx
  simpa using hx.2

theorem FS.dirExists_writeFile (fs : FS) (p : String) (sz : Nat) (d : String) :
    (fs.writeFile p sz).dirExists d = fs.dirExists d := rfl

theorem FS.dirExists_removeFile (fs : FS) (p d : String) :
    (fs.removeFile p).dirExists d = fs.dirExists d := rfl

theorem FS.dirExists_writeOpt (fs : FS) (p : String) (w : Option Nat) (d : String) :
    (fs.writeOpt p w).dirExists d = fs.dirExists d := by
  cases w <;> rfl

/-- The filesystem produced by `download_video_for_gemini` always contains the
temp directory it created: nothing in that function removes a directory. -/
theorem download_dirExists (fs0 : FS) (tempDir : String) (o : DlOutcome) (mb : Nat) :
    ((download_video_for_gemini fs0 tempDir o mb).fs).dirExists tempDir = true := by
  cases o with
  | raised m => exact FS.dirExists_mkdir_self fs0 tempDir
  | returned path written =>
    show ((downloadSizeCheck _ path mb).fs).dirExists tempDir = true
    unfold downloadSizeCheck
    cases hw : ((fs0.mkdir tempDir).writeOpt path written).getFile path with
    | none =>
      simpa [FS.dirExists_writeOpt] using FS.dirExists_mkdir_self fs0 tempDir
    | some sz =>
      by_cases hov : overBudget sz mb
      · simpa [hov, FS.dirExists_removeFile, FS.dirExists_writeOpt] using
          FS.dirExists_mkdir_self fs0 tempDir
      · simpa [hov, FS.dirExists_writeOpt] using FS.dirExists_mkdir_self fs0 tempDir

/-- The function `uploadExceptRmdir` touches only directories. -/
theorem getFile_uploadExceptRmdir (fs3 : FS) (tempDir p : String) :
    (uploadExceptRmdir fs3 tempDir).getFile p = fs3.getFile p := by
  unfold uploadExceptRmdir
  by_cases h : fs3.dirExists tempDir = true
  · rw [if_pos h, FS.getFile_rmdir]
  · rw [if_neg h]

/-- After the upload-path `except` cleanup the temp directory is gone. -/
theorem dirExists_uploadExceptCleanup (fs2 : FS) (tempPath tempDir : String) :
    (uploadExceptCleanup fs2 tempPath tempDir).dirExists tempDir = false := by
  unfold uploadExceptCleanup uploadExceptRmdir
  by_cases h :
      (if (fs2.getFile tempPath).isSome then fs2.removeFile tempPath else fs2).dirExists
        tempDir = true
  · rw [if_pos h]
    exact FS.dirExists_rmdir_self _ tempDir
  · rw [if_neg h]
    simpa using h

/-- The URL branch's post-download handling never touches directories. -/
theorem dirExists_urlDownloadCleanup (a : AcquireOut) (proc : ProcessOutcome) (d : String) :
    (urlDownloadCleanup a proc).dirExists d = a.fs.dirExists d := by
  unfold urlDownloadCleanup
  cases hr : a.result with
  | none => rfl
  | some path =>
    cases proc with
    | ok => exact FS.dirExists_removeFile a.fs path d
    | raised =>
      dsimp only
      by_cases h : (a.fs.getFile path).isSome = true
      · rw [if_pos h]
        exact FS.dirExists_removeFile a.fs path d
      · rw [if_neg h]

/-- Characterization of a successful run of the displayed-field reads. -/
theorem display_fields (kvs : List (String × JSON)) (d : DisplayedAnalysis)
    (h : display_analysis_results kvs = .ok d) :
    readScore kvs = .ok d.score ∧
    readListField kvs "specific_matches" = .ok d.specific_matches ∧
    readListField kvs "key_insights" = .ok d.key_insights ∧
    readListField kvs "action_items" = .ok d.action_items ∧
    readRisk kvs = .ok d.risk ∧
    readListField kvs "visual_elements" = .ok d.visual_elements := by
  unfold display_analysis_results at h
  cases h1 : readScore kvs with
  | error e => rw [h1] at h; cases h
  | ok score =>
  rw [h1] at h
  cases h2 : readListField kvs "specific_matches" with
  | error e => rw [h2] at h; cases h
  | ok sm =>
  rw [h2] at h
  cases h3 : readListField kvs "key_insights" with
  | error e => rw [h3] at h; cases h
  | ok ki =>
  rw [h3] at h
  cases h4 : readListField kvs "action_items" with
  | error e => rw [h4] at h; cases h
  | ok ai =>
  rw [h4] at h
  cases h5 : readRisk kvs with
  | error e => rw [h5] at h; cases h
  | ok rk =>
  rw [h5] at h
  cases h6 : readListField kvs "visual_elements" with
  | error e => rw [h6] at h; cases h
  | ok ve =>
  rw [h6] at h
  cases h
  exact ⟨rfl, rfl, rfl, rfl, rfl, rfl⟩

/-- A `pySlice` with an upper bound at or below the lower bound is empty. -/
theorem pySlice_of_le (s : String) (a b : Nat) (h : b ≤ a) : pySlice s a b = "" := by
  simp [pySlice, Nat.sub_eq_zero_of_le h]

/-! ### Claims -/

/-- Claim C1 (amended): the candidate selection of `parse_gemini_response`
agrees with the spec when the working text has no brace at all (candidate =
the entire trimmed working text) and when the first brace is at or before
the last closing brace (candidate = the inclusive substring); but when a
brace is present and no closing brace occurs at or after it, the candidate
is the empty string, not the trimmed working text, because the code's
`end_idx = rfind + 1` makes its `end_idx != -1` existence check vacuous. -/
theorem C1_candidate_selection (wt : String) :
    (py_find wt '{' = -1 → selectCandidate wt = wt) ∧
    (∀ i j : Nat, py_find wt '{' = (i : Int) → py_rfind wt '}' = (j : Int) → i ≤ j →
      selectCandidate wt = pySlice wt i (j + 1)) ∧
    (∀ i : Nat, py_find wt '{' = (i : Int) → py_rfind wt '}' < (i : Int) →
      selectCandidate wt = "") := by
  refine ⟨?_, ?_, ?_⟩
  · intro h
    simp [selectCandidate, h]
  · intro i j hi hj hij
    unfold selectCandidate
    rw [hi, hj, if_pos]
    · congr 1
    · constructor <;> omega
  · intro i hi hlt
    unfold selectCandidate
    rw [hi, if_pos]
    · exact pySlice_of_le wt _ _ (by omega)
    · refine ⟨by omega, ?_⟩
      have hge : -1 ≤ py_rfind wt '}' := by
        unfold py_rfind
        cases h : (wt.data.reverse.findIdx? (· = '}')) with
        | none => simp
        | some k => simp only []; omega
      omega

/-- Claim C1, counterexample: for the working text `a{` (a brace with no
closing brace anywhere), the code's candidate is the empty string while the
spec's rule demands the entire trimmed working text. -/
theorem C1_counterexample :
    workingText "a\x7b" = "a\x7b" ∧ selectCandidate "a\x7b" = "" ∧
    selectCandidateSpec "a\x7b" = "a\x7b" ∧
    selectCandidate "a\x7b" ≠ selectCandidateSpec "a\x7b" := by
  refine ⟨rfl, rfl, rfl, by decide⟩

/-- Claim C1, witness: on the working text `x{y}z` the selected candidate is
the inclusive substring from the first brace to the last closing brace. -/
theorem C1_candidate_selection_witness :
    selectCandidate "x\x7by\x7dz" = pySlice "x\x7by\x7dz" 1 4 :=
  (C1_candidate_selection "x\x7by\x7dz").2.1 1 3 (by decide) (by decide) (by decide)

/-- Claim C3 (amended): on decode failure the diagnostic excerpt is the
first 500 characters of the working text at the time of failure (the
fence-extracted, trimmed text bound to the `response_text` variable), which
coincides with the first 500 characters of the original raw text exactly
when the raw text contains no fence marker and is its own trim. -/
theorem C3_failure_excerpt (raw e : String)
    (h : parse_gemini_response raw = .failure e) :
    e = pyTake (workingText raw) 500 ∧
    (containsSubstr "```json" raw = false → containsSubstr "```" raw = false →
      pyStrip raw = raw → e = pyTake raw 500) := by
  have h1 : e = pyTake (workingText raw) 500 := by
    unfold parse_gemini_response at h
    cases hj : json_loads (selectCandidate (workingText raw)) with
    | some v => rw [hj] at h; cases h
    | none => rw [hj] at h; cases h; rfl
  refine ⟨h1, fun hf1 hf2 ht => ?_⟩
  have hw : workingText raw = raw := by
    unfold workingText
    rw [if_neg (by simp [hf1]), if_neg (by simp [hf2])]
    exact ht
  rw [h1, hw]

/-- Claim C3, counterexample: for the raw input `" abc"` (leading space, no
braces) decoding fails and the excerpt is `"abc"` — the first 500 characters
of the stripped working text — not the first 500 characters `" abc"` of the
original raw input. -/
theorem C3_counterexample :
    parse_gemini_response " abc" = .failure "abc" ∧
    pyTake " abc" 500 = " abc" ∧ ("abc" : String) ≠ " abc" := by
  refine ⟨rfl, rfl, by decide⟩

/-- Claim C3, witness: for the fence-free, trim-fixed input `"abc"` the
excerpt is both the first 500 characters of the working text and of the raw
input. -/
theorem C3_failure_excerpt_witness :
    ("abc" : String) = pyTake (workingText "abc") 500 ∧
    (containsSubstr "```json" "abc" = false → containsSubstr "```" "abc" = false →
      pyStrip "abc" = "abc" → ("abc" : String) = pyTake "abc" 500) :=
  C3_failure_excerpt "abc" "abc" rfl

/-- Claim C7 (amended): `parse_gemini_response` returns whatever JSON value
the candidate decodes to — object or not — on decode success, and a
`ParseFailure` only on decode failure; no not-an-object check exists
anywhere in the parser. -/
theorem C7_parse_passthrough (raw : String) (v : JSON)
    (h : json_loads (selectCandidate (workingText raw)) = some v) :
    parse_gemini_response raw = .success v := by
  unfold parse_gemini_response
  rw [h]

/-- Claim C7, counterexample: on the raw input `"5"` the parser successfully
returns the decoded integer `5`, a non-object JSON value, rather than a
`ParseFailure`. -/
theorem C7_counterexample :
    parse_gemini_response "5" = .success (.num 5) ∧ JSON.isObj (.num 5) = false :=
  ⟨rfl, rfl⟩

/-- Claim C7, witness: the decoded value of the candidate of `"7"` is the
non-object `7` and the parser passes it through. -/
theorem C7_parse_passthrough_witness :
    parse_gemini_response "7" = .success (.num 7) :=
  C7_parse_passthrough "7" (.num 7) rfl

/-- Claim C9: `parse_gemini_response` is deterministic — identical raw input
text yields identical output; the embedding is a pure function of the input
string, with no randomness or environment dependence. -/
theorem C9_parse_deterministic (s t : String) (h : s = t) :
    parse_gemini_response s = parse_gemini_response t := by
  rw [h]

/-- Claim C9, witness: determinism applied at a concrete input. -/
theorem C9_parse_deterministic_witness :
    parse_gemini_response "ok" = parse_gemini_response "ok" :=
  C9_parse_deterministic "ok" "ok" rfl

/-- Claim C10: every inline-bytes request (any non-YouTube source — a
downloaded or uploaded local file of any container format) declares the
hard-coded MIME type `video/mp4`, regardless of the file's bytes or name. -/
theorem C10_inline_mime_fixed (video_source : String) (readBytes : String → List Nat) :
    (buildVideoPart video_source readBytes false).mimeType = some "video/mp4" := rfl

/-- Claim C2: `download_video_for_gemini` never returns a local file whose
measured size exceeds the budget; when the downloaded file is over the
budget, the file is deleted, the result is `None`, and the file no longer
exists in the filesystem afterwards. -/
theorem C2_acquire_size_budget (fs0 : FS) (tempDir : String) (o : DlOutcome) (mb : Nat) :
    (∀ p, (download_video_for_gemini fs0 tempDir o mb).result = some p →
      ∃ sz, ((download_video_for_gemini fs0 tempDir o mb).fs).getFile p = some sz ∧
        overBudget sz mb = false) ∧
    (∀ p sz, o = .returned p (some sz) → overBudget sz mb = true →
      (download_video_for_gemini fs0 tempDir o mb).result = none ∧
      ((download_video_for_gemini fs0 tempDir o mb).fs).getFile p = none) := by
  constructor
  · intro p hp
    cases o with
    | raised m => cases hp
    | returned path written =>
      unfold download_video_for_gemini downloadSizeCheck at hp ⊢
      dsimp only at hp ⊢
      cases hw : ((fs0.mkdir tempDir).writeOpt path written).getFile path with
      | none =>
        rw [hw] at hp
        simp at hp
      | some sz =>
        rw [hw] at hp
        dsimp only at hp
        by_cases hov : overBudget sz mb = true
        · rw [if_pos hov] at hp; cases hp
        · rw [if_neg hov] at hp
          cases hp
          dsimp only
          rw [if_neg hov]
          exact ⟨sz, hw, by simpa using hov⟩
  · intro p sz ho hov
    subst ho
    unfold download_video_for_gemini downloadSizeCheck
    dsimp only
    have hw : ((fs0.mkdir tempDir).writeOpt p (some sz)).getFile p = some sz :=
      FS.getFile_writeFile_self (fs0.mkdir tempDir) p sz
    rw [hw]
    dsimp only
    rw [if_pos hov]
    exact ⟨rfl, FS.getFile_removeFile_self _ p⟩

/-- Claim C2, witness: a 21 MiB download against the default 20 MB budget is
deleted and reported unavailable. -/
theorem C2_acquire_size_budget_witness :
    (download_video_for_gemini ⟨[], []⟩ "t" (.returned "t/v.mp4" (some 22020096)) 20).result = none ∧
    ((download_video_for_gemini ⟨[], []⟩ "t" (.returned "t/v.mp4" (some 22020096)) 20).fs).getFile
      "t/v.mp4" = none :=
  (C2_acquire_size_budget ⟨[], []⟩ "t" (.returned "t/v.mp4" (some 22020096)) 20).2
    "t/v.mp4" 22020096 rfl (by decide)

/-- Claim C6: on any extraction error, `get_video_info_basic` does not
propagate the failure: it returns the defaulted record (title "Unknown",
duration 0, platform "Unknown") and reports the error only through the
message side channel. -/
theorem C6_resolver_never_fails (url m : String) (o : ExtractOutcome)
    (h : o = .raised m) :
    (get_video_info_basic url o).1 =
      { title := "Unknown", duration := 0, url := url, platform := "Unknown" } ∧
    (get_video_info_basic url o).2 = ["Error extracting video info: " ++ m] := by
  subst h
  exact ⟨rfl, rfl⟩

/-- Claim C6, witness: resolution of an unreachable URL. -/
theorem C6_resolver_never_fails_witness :
    (get_video_info_basic "http://unreachable.example" (.raised "boom")).1 =
      { title := "Unknown", duration := 0, url := "http://unreachable.example",
        platform := "Unknown" } ∧
    (get_video_info_basic "http://unreachable.example" (.raised "boom")).2 =
      ["Error extracting video info: " ++ "boom"] :=
  C6_resolver_never_fails "http://unreachable.example" "boom" (.raised "boom") rfl

/-- Claim C8 (amended): after a reported-successful download, a missing
result file is treated as a reported error (message emitted, result
`None`); a zero-byte result file, however, passes the size check silently
and is returned as a usable local file rather than being treated as an
error. -/
theorem C8_postdownload_checks (fs0 : FS) (tempDir p : String) (mb : Nat) :
    (fs0.getFile p = none →
      (download_video_for_gemini fs0 tempDir (.returned p none) mb).result = none ∧
      (download_video_for_gemini fs0 tempDir (.returned p none) mb).errors =
        ["Failed to download video file"]) ∧
    ((download_video_for_gemini fs0 tempDir (.returned p (some 0)) mb).result = some p ∧
      (download_video_for_gemini fs0 tempDir (.returned p (some 0)) mb).errors = []) := by
  constructor
  · intro h
    unfold download_video_for_gemini downloadSizeCheck
    dsimp only
    have hw : ((fs0.mkdir tempDir).writeOpt p none).getFile p = none := h
    rw [hw]
    exact ⟨rfl, rfl⟩
  · unfold download_video_for_gemini downloadSizeCheck
    dsimp only
    have hw : ((fs0.mkdir tempDir).writeOpt p (some 0)).getFile p = some 0 :=
      FS.getFile_writeFile_self (fs0.mkdir tempDir) p 0
    rw [hw]
    dsimp only
    rw [if_neg (by simp [overBudget])]
    exact ⟨rfl, rfl⟩

/-- Claim C8, counterexample: a zero-byte downloaded file is returned as a
usable local file, with no error reported, instead of being treated as an
error. -/
theorem C8_counterexample :
    (download_video_for_gemini ⟨[], []⟩ "t" (.returned "t/v.mp4" (some 0)) 20).result =
      some "t/v.mp4" ∧
    (download_video_for_gemini ⟨[], []⟩ "t" (.returned "t/v.mp4" (some 0)) 20).errors = [] :=
  ⟨rfl, rfl⟩

/-- Claim C8, witness: the missing-file half at a concrete input. -/
theorem C8_postdownload_checks_witness :
    (download_video_for_gemini ⟨[], []⟩ "t" (.returned "t/gone.mp4" none) 20).result = none ∧
    (download_video_for_gemini ⟨[], []⟩ "t" (.returned "t/gone.mp4" none) 20).errors =
      ["Failed to download video file"] :=
  (C8_postdownload_checks ⟨[], []⟩ "t" "t/gone.mp4" 20).1 rfl

/-- Claim C5 (amended): the upload path removes both the staging file and
its temp directory on every exit path; the URL-download path removes the
downloaded file on every exit path, but the download temp directory created
by `download_video_for_gemini` is never removed on any exit path. -/
theorem C5_temp_cleanup (fs0 : FS) (tempDir fileName : String) (sizeBytes : Nat)
    (proc : ProcessOutcome) (o : DlOutcome) (mb : Nat) :
    ((mainUploadFlow fs0 tempDir fileName sizeBytes proc).getFile
      (tempDir ++ "/" ++ fileName) = none) ∧
    ((mainUploadFlow fs0 tempDir fileName sizeBytes proc).dirExists tempDir = false) ∧
    ((mainUrlDownloadFlow fs0 tempDir o proc mb).dirExists tempDir = true) ∧
    (∀ p, (download_video_for_gemini fs0 tempDir o mb).result = some p →
      (mainUrlDownloadFlow fs0 tempDir o proc mb).getFile p = none) := by
  refine ⟨?_, ?_, ?_, ?_⟩
  · unfold mainUploadFlow uploadCleanup
    cases proc with
    | ok =>
      rw [FS.getFile_rmdir]
      exact FS.getFile_removeFile_self _ _
    | raised =>
      unfold uploadExceptCleanup
      rw [getFile_uploadExceptRmdir, FS.getFile_writeFile_self]
      simp only [Option.isSome_some, if_true]
      exact FS.getFile_removeFile_self _ _
  · unfold mainUploadFlow uploadCleanup
    cases proc with
    | ok => exact FS.dirExists_rmdir_self _ tempDir
    | raised => exact dirExists_uploadExceptCleanup _ _ tempDir
  · unfold mainUrlDownloadFlow
    rw [dirExists_urlDownloadCleanup]
    exact download_dirExists fs0 tempDir o mb
  · intro p hp
    unfold mainUrlDownloadFlow urlDownloadCleanup
    rw [hp]
    dsimp only
    cases proc with
    | ok => exact FS.getFile_removeFile_self _ p
    | raised =>
      dsimp only
      cases hg : ((download_video_for_gemini fs0 tempDir o mb).fs).getFile p with
      | none => simpa using hg
      | some sz =>
        simpa using FS.getFile_removeFile_self ((download_video_for_gemini fs0 tempDir o mb).fs) p

/-- Claim C5, counterexample: a fully successful URL-download invocation
(download under budget, analysis and display complete without raising)
removes the downloaded file but leaves the download temp directory in
place — the directory is not removed on this (or any) exit path. -/
theorem C5_counterexample :
    (mainUrlDownloadFlow ⟨[], []⟩ "t" (.returned "t/v.mp4" (some 5)) .ok 20).getFile
      "t/v.mp4" = none ∧
    (mainUrlDownloadFlow ⟨[], []⟩ "t" (.returned "t/v.mp4" (some 5)) .ok 20).dirExists
      "t" = true :=
  ⟨rfl, rfl⟩

/-- Claim C5, witness: the amended cleanup guarantees at a concrete
invocation whose analysis section raised. -/
theorem C5_temp_cleanup_witness :
    (mainUrlDownloadFlow ⟨[], []⟩ "d" (.returned "d/v.mp4" (some 3)) .raised 20).getFile
      "d/v.mp4" = none :=
  (C5_temp_cleanup ⟨[], []⟩ "d" "f.mp4" 1 .raised (.returned "d/v.mp4" (some 3)) 20).2.2.2
    "d/v.mp4" rfl

/-- Claim C4 (amended): the validation reads substitute a default only when
a field is absent — missing relevance_score reads as 0, each missing list
field as an empty sequence, and a missing risk_assessment as "unknown" —
but a present risk string is lowercased and passed through unchanged even
when it is not one of low/medium/high (it is not replaced by "unknown"),
and a present field of unexpected type raises instead of defaulting, so the
reads are not total over every decoded object. -/
theorem C4_validator_defaults (kvs : List (String × JSON)) (d : DisplayedAnalysis)
    (h : display_analysis_results kvs = .ok d) :
    (pyGet kvs "relevance_score" = none → d.score = 0) ∧
    (pyGet kvs "specific_matches" = none → d.specific_matches = []) ∧
    (pyGet kvs "key_insights" = none → d.key_insights = []) ∧
    (pyGet kvs "action_items" = none → d.action_items = []) ∧
    (pyGet kvs "visual_elements" = none → d.visual_elements = []) ∧
    (pyGet kvs "risk_assessment" = none → d.risk = "unknown") ∧
    (∀ s, pyGet kvs "risk_assessment" = some (.str s) → d.risk = pyLowerStr s) := by
  obtain ⟨h1, h2, h3, h4, h5, h6⟩ := display_fields kvs d h
  refine ⟨?_, ?_, ?_, ?_, ?_, ?_, ?_⟩
  · intro hm
    rw [readScore, pyGetD, hm] at h1
    simp [pyIntOfJSON] at h1
    omega
  · intro hm
    rw [readListField, hm] at h2
    injection h2 with h2
    exact h2.symm
  · intro hm
    rw [readListField, hm] at h3
    injection h3 with h3
    exact h3.symm
  · intro hm
    rw [readListField, hm] at h4
    injection h4 with h4
    exact h4.symm
  · intro hm
    rw [readListField, hm] at h6
    injection h6 with h6
    exact h6.symm
  · intro hm
    rw [readRisk, pyGetD, hm] at h5
    injection h5 with h5
    rw [← h5]
    decide
  · intro s hm
    rw [readRisk, pyGetD, hm] at h5
    injection h5 with h5
    exact h5.symm

/-- Claim C4, counterexample: the decoded object with the unrecognized risk
string "Severe" is displayed with risk "severe" — lowercased and passed
through, not replaced by "unknown" — and the object with a non-string
risk value makes the reads raise instead of defaulting, so validation is
not total. -/
theorem C4_counterexample :
    display_analysis_results [("risk_assessment", .str "Severe")] =
      .ok { score := 0, content_summary := none,
            summary := .str "No summary available", specific_matches := [],
            key_insights := [], action_items := [], risk := "severe",
            visual_elements := [] } ∧
    ("severe" : String) ≠ "unknown" ∧
    display_analysis_results [("risk_assessment", .num 3)] =
      .error "AttributeError: lower" := by
  refine ⟨rfl, by decide, rfl⟩

/-- Claim C4, witness: the passthrough conjunct applied to the concrete
object carrying the risk string "HIGH". -/
theorem C4_validator_defaults_witness :
    DisplayedAnalysis.risk
      { score := 0, content_summary := none,
        summary := .str "No summary available", specific_matches := [],
        key_insights := [], action_items := [], risk := "high",
        visual_elements := [] } = pyLowerStr "HIGH" :=
  (C4_validator_defaults [("risk_assessment", .str "HIGH")]
    { score := 0, content_summary := none,
      summary := .str "No summary available", specific_matches := [],
      key_insights := [], action_items := [], risk := "high",
      visual_elements := [] } rfl).2.2.2.2.2.2 "HIGH" rfl

end App
